import Mathlib

/-!
Shallow embedding of the `hyrcania` olive-oil spectroscopy repository
(quality scoring, spectral data model, CSV spectrum extraction, header and
filename parsing, strategy factory), together with theorems settling the
specification claims.  Real-valued quantities are modelled over `ℚ`;
optional values are `Option ℚ`; Python dictionaries keyed by strings are
modelled as association lists in insertion order; fallible constructors are
modelled with `Except`.
-/

namespace Hyrcania

/-! ### Quality domain model (src/hyrcania/domain/models/quality.py) -/

/-- Quality grades for olive oil (`QualityGrade` enum). -/
inductive QualityGrade where
  | extra_virgin
  | virgin
  | lampante
  | refined
  | unknown
  deriving DecidableEq, Repr

/-- Quality metrics for olive oil assessment (`QualityMetrics` dataclass).
The `timestamp` field is omitted: no scoring or compliance code reads it. -/
structure QualityMetrics where
  acidity : Option ℚ := none
  peroxide_value : Option ℚ := none
  k232 : Option ℚ := none
  k270 : Option ℚ := none
  delta_k : Option ℚ := none
  flavor_score : Option ℚ := none
  aroma_score : Option ℚ := none
  deriving DecidableEq, Repr

/-- The common shape of the four chemical sub-score branches in
`calculate_overall_score`: each branch is
`100 - (v / thr) * 20` at or below the threshold `thr`, and
`max(0, 80 - (v - thr) * rate)` above it, with per-indicator constants
`(thr, rate)` = acidity `(0.8, 50)`, peroxide `(20, 2)`, k232 `(2.5, 20)`,
k270 `(0.22, 200)`. -/
def chemSub (thr rate v : ℚ) : ℚ :=
  if v ≤ thr then 100 - (v / thr) * 20 else max 0 (80 - (v - thr) * rate)

/-- The `scores` list built by `QualityMetrics.calculate_overall_score`:
one appended sub-score per non-`None` indicator, in source order. -/
def QualityMetrics.scores (m : QualityMetrics) : List ℚ :=
  (match m.acidity with
    | some a => [chemSub 0.8 50 a]
    | none => []) ++
  (match m.peroxide_value with
    | some p => [chemSub 20 2 p]
    | none => []) ++
  (match m.k232 with
    | some k => [chemSub 2.5 20 k]
    | none => []) ++
  (match m.k270 with
    | some k => [chemSub 0.22 200 k]
    | none => []) ++
  (match m.flavor_score with
    | some f => [f]
    | none => []) ++
  (match m.aroma_score with
    | some a => [a]
    | none => [])

/-- Source method `QualityMetrics.calculate_overall_score`:
`sum(scores) / len(scores) if scores else 0.0`. -/
def QualityMetrics.calculate_overall_score (m : QualityMetrics) : ℚ :=
  if m.scores = [] then 0 else m.scores.sum / m.scores.length

/-- Source method `QualityMetrics.determine_quality_grade`. -/
def QualityMetrics.determine_quality_grade (m : QualityMetrics) : QualityGrade :=
  if m.calculate_overall_score ≥ 90 then QualityGrade.extra_virgin
  else if m.calculate_overall_score ≥ 80 then QualityGrade.virgin
  else if m.calculate_overall_score ≥ 60 then QualityGrade.lampante
  else QualityGrade.refined

/-- Quality thresholds for different grades (`QualityThreshold` dataclass). -/
structure QualityThreshold where
  grade : QualityGrade
  max_acidity : ℚ
  max_peroxide_value : ℚ
  max_k232 : ℚ
  max_k270 : ℚ
  min_flavor_score : ℚ
  min_aroma_score : ℚ
  deriving DecidableEq, Repr

/-- Source method `QualityThreshold.check_compliance`: the returned Python dict, modelled
as an association list in insertion order. -/
def QualityThreshold.check_compliance (t : QualityThreshold) (m : QualityMetrics) :
    List (String × Bool) :=
  (match m.acidity with
    | some a => [("acidity", decide (a ≤ t.max_acidity))]
    | none => []) ++
  (match m.peroxide_value with
    | some p => [("peroxide_value", decide (p ≤ t.max_peroxide_value))]
    | none => []) ++
  (match m.k232 with
    | some k => [("k232", decide (k ≤ t.max_k232))]
    | none => []) ++
  (match m.k270 with
    | some k => [("k270", decide (k ≤ t.max_k270))]
    | none => []) ++
  (match m.flavor_score with
    | some f => [("flavor", decide (f ≥ t.min_flavor_score))]
    | none => []) ++
  (match m.aroma_score with
    | some a => [("aroma", decide (a ≥ t.min_aroma_score))]
    | none => [])

/-! ### Spec-side formulations for the quality claims -/

/-- Spec wording of the chemical sub-score: at or below the threshold the
score linearly interpolates between 100 at value 0 and 80 at the threshold;
above it, the score decreases linearly from 80 at the given rate, clamped
below at 0. -/
def specChemSub (thr rate v : ℚ) : ℚ :=
  if v ≤ thr then 100 + (80 - 100) * (v / thr) else max (80 - rate * (v - thr)) 0

/-- Spec-side sub-score list: one sub-score per present indicator, chemical
indicators through `specChemSub`, sensory scores used directly. -/
def spec_sub_scores (m : QualityMetrics) : List ℚ :=
  (match m.acidity with
    | some a => [specChemSub 0.8 50 a]
    | none => []) ++
  (match m.peroxide_value with
    | some p => [specChemSub 20 2 p]
    | none => []) ++
  (match m.k232 with
    | some k => [specChemSub 2.5 20 k]
    | none => []) ++
  (match m.k270 with
    | some k => [specChemSub 0.22 200 k]
    | none => []) ++
  (match m.flavor_score with
    | some f => [f]
    | none => []) ++
  (match m.aroma_score with
    | some a => [a]
    | none => [])

/-- Spec-side overall score: arithmetic mean of the present sub-scores,
`0.0` when none are present. -/
def spec_overall_score (m : QualityMetrics) : ℚ :=
  if spec_sub_scores m = [] then 0 else (spec_sub_scores m).sum / (spec_sub_scores m).length

/-- The indicator names the claim expects `check_compliance` to cover: one
per present metric, `delta_k` included. -/
def presentIndicatorsClaim (m : QualityMetrics) : List String :=
  (match m.acidity with
    | some _ => ["acidity"]
    | none => []) ++
  (match m.peroxide_value with
    | some _ => ["peroxide_value"]
    | none => []) ++
  (match m.k232 with
    | some _ => ["k232"]
    | none => []) ++
  (match m.k270 with
    | some _ => ["k270"]
    | none => []) ++
  (match m.delta_k with
    | some _ => ["delta_k"]
    | none => []) ++
  (match m.flavor_score with
    | some _ => ["flavor"]
    | none => []) ++
  (match m.aroma_score with
    | some _ => ["aroma"]
    | none => [])

/-- The indicator names `check_compliance` actually covers: one per present
metric among acidity, peroxide value, k232, k270, flavor and aroma, with
`delta_k` never consulted. -/
def presentIndicatorsCompliance (m : QualityMetrics) : List String :=
  (match m.acidity with
    | some _ => ["acidity"]
    | none => []) ++
  (match m.peroxide_value with
    | some _ => ["peroxide_value"]
    | none => []) ++
  (match m.k232 with
    | some _ => ["k232"]
    | none => []) ++
  (match m.k270 with
    | some _ => ["k270"]
    | none => []) ++
  (match m.flavor_score with
    | some _ => ["flavor"]
    | none => []) ++
  (match m.aroma_score with
    | some _ => ["aroma"]
    | none => [])

/-- The metrics of claim C1: acidity 0.4, peroxide value 10, k232 2.0,
k270 0.1, all other indicators absent. -/
def metricsC1 : QualityMetrics :=
  { acidity := some 0.4, peroxide_value := some 10, k232 := some 2.0, k270 := some 0.1 }

lemma chemSub_eq_specChemSub : chemSub = specChemSub := by
  funext thr rate v
  unfold chemSub specChemSub
  split
  · ring
  · rw [max_comm]
    ring_nf

lemma chemSub_bounds (thr rate v : ℚ) (hthr : 0 < thr) (hrate : 0 ≤ rate) (hv : 0 ≤ v) :
    0 ≤ chemSub thr rate v ∧ chemSub thr rate v ≤ 100 := by
  unfold chemSub
  split
  · rename_i hle
    have h0 : 0 ≤ v / thr := div_nonneg hv hthr.le
    have h1 : v / thr ≤ 1 := (div_le_one hthr).mpr hle
    constructor <;> nlinarith
  · rename_i hgt
    push_neg at hgt
    have h0 : 0 ≤ (v - thr) * rate := mul_nonneg (by linarith) hrate
    exact ⟨le_max_left 0 _, max_le (by norm_num) (by linarith)⟩

lemma option_block_bounds (f : ℚ → ℚ) (o : Option ℚ)
    (h : ∀ v, o = some v → 0 ≤ f v ∧ f v ≤ 100) :
    ∀ x ∈ (match o with | some v => [f v] | none => ([] : List ℚ)), 0 ≤ x ∧ x ≤ 100 := by
  intro x hx
  cases o with
  | none => simp at hx
  | some v =>
    simp only [List.mem_singleton] at hx
    subst hx
    exact h v rfl

lemma scores_bounds (m : QualityMetrics)
    (ha : ∀ a, m.acidity = some a → 0 ≤ a)
    (hp : ∀ p, m.peroxide_value = some p → 0 ≤ p)
    (h2 : ∀ k, m.k232 = some k → 0 ≤ k)
    (h7 : ∀ k, m.k270 = some k → 0 ≤ k)
    (hf : ∀ f, m.flavor_score = some f → 0 ≤ f ∧ f ≤ 100)
    (hr : ∀ a, m.aroma_score = some a → 0 ≤ a ∧ a ≤ 100) :
    ∀ x ∈ m.scores, 0 ≤ x ∧ x ≤ 100 := by
  unfold QualityMetrics.scores
  simp only [List.forall_mem_append]
  refine ⟨⟨⟨⟨⟨?_, ?_⟩, ?_⟩, ?_⟩, ?_⟩, ?_⟩
  · exact option_block_bounds (chemSub 0.8 50) m.acidity
      (fun v hv => chemSub_bounds _ _ _ (by norm_num) (by norm_num) (ha v hv))
  · exact option_block_bounds (chemSub 20 2) m.peroxide_value
      (fun v hv => chemSub_bounds _ _ _ (by norm_num) (by norm_num) (hp v hv))
  · exact option_block_bounds (chemSub 2.5 20) m.k232
      (fun v hv => chemSub_bounds _ _ _ (by norm_num) (by norm_num) (h2 v hv))
  · exact option_block_bounds (chemSub 0.22 200) m.k270
      (fun v hv => chemSub_bounds _ _ _ (by norm_num) (by norm_num) (h7 v hv))
  · exact option_block_bounds (fun x => x) m.flavor_score (fun v hv => hf v hv)
  · exact option_block_bounds (fun x => x) m.aroma_score (fun v hv => hr v hv)

lemma mean_bounds (l : List ℚ) (h : ∀ x ∈ l, 0 ≤ x ∧ x ≤ 100) :
    0 ≤ (if l = [] then 0 else l.sum / l.length) ∧
      (if l = [] then 0 else l.sum / l.length) ≤ 100 := by
  split
  · norm_num
  · rename_i hne
    have hlen : 0 < (l.length : ℚ) := by
      have : 0 < l.length := List.length_pos.mpr hne
      exact_mod_cast this
    constructor
    · exact div_nonneg (List.sum_nonneg fun x hx => (h x hx).1) hlen.le
    · rw [div_le_iff₀ hlen]
      calc l.sum ≤ l.length • (100 : ℚ) :=
            List.sum_le_card_nsmul l 100 fun x hx => (h x hx).2
        _ = 100 * l.length := by rw [nsmul_eq_mul]; ring

/-! ### Claims C1 - C4 and C10 -/

/-- C1 (counterexample): for `QualityMetrics(acidity=0.4, peroxide_value=10,
k232=2.0, k270=0.1)` the code's overall score is `976/11 ≈ 88.73`, which is
below 90, and the grade is `virgin`, not `extra_virgin` — the claim fails. -/
theorem C1_counterexample :
    ¬ (metricsC1.calculate_overall_score ≥ 90 ∧
       metricsC1.determine_quality_grade = QualityGrade.extra_virgin) := by
  intro h
  have h1 := h.1
  simp [metricsC1, QualityMetrics.calculate_overall_score,
        QualityMetrics.scores, chemSub] at h1
  norm_num at h1

/-- C1 (amended): for `QualityMetrics(acidity=0.4, peroxide_value=10,
k232=2.0, k270=0.1)` the overall score is exactly `976/11 ≈ 88.73`, hence at
least 80 but below 90, and the grade is `virgin`. -/
theorem C1_amended :
    metricsC1.calculate_overall_score = 976 / 11 ∧
    metricsC1.calculate_overall_score ≥ 80 ∧
    metricsC1.determine_quality_grade = QualityGrade.virgin := by
  have hs : metricsC1.calculate_overall_score = 976 / 11 := by
    simp [metricsC1, QualityMetrics.calculate_overall_score,
          QualityMetrics.scores, chemSub]
    norm_num
  refine ⟨hs, by rw [hs]; norm_num, ?_⟩
  unfold QualityMetrics.determine_quality_grade
  rw [hs]
  norm_num

/-- Metrics with only `delta_k` present, for claim C2. -/
def metricsDeltaOnly : QualityMetrics := { delta_k := some 0 }

/-- A concrete threshold (the extra-virgin EU limits), for claim C2. -/
def thresholdEx : QualityThreshold :=
  { grade := QualityGrade.extra_virgin, max_acidity := 0.8, max_peroxide_value := 20,
    max_k232 := 2.5, max_k270 := 0.22, min_flavor_score := 7, min_aroma_score := 7 }

/-- C2 (counterexample): for metrics whose only present indicator is
`delta_k`, `check_compliance` returns a mapping with no entry at all for
`delta_k`, contradicting the claim that every present indicator — including
`delta_k` — gets exactly one boolean entry. -/
theorem C2_counterexample :
    metricsDeltaOnly.delta_k.isSome = true ∧
    "delta_k" ∉ (thresholdEx.check_compliance metricsDeltaOnly).map Prod.fst := by
  constructor
  · rfl
  · simp [thresholdEx, metricsDeltaOnly, QualityThreshold.check_compliance]

/-- C2 (amended): for every `QualityMetrics` and every `QualityThreshold`,
`check_compliance` returns a mapping with exactly one boolean entry for each
present indicator among acidity, peroxide value, k232, k270, flavor and
aroma, and no entry for an absent indicator; `delta_k` is never checked. -/
theorem C2_amended (t : QualityThreshold) (m : QualityMetrics) :
    (t.check_compliance m).map Prod.fst = presentIndicatorsCompliance m := by
  obtain ⟨a, p, k2, k7, dk, fl, ar⟩ := m
  cases a <;> cases p <;> cases k2 <;> cases k7 <;> cases fl <;> cases ar <;> rfl

/-- C3: `calculate_overall_score` is the arithmetic mean of the sub-scores
of the present indicators (0.0 when none is present), where chemical
indicators get the piecewise-linear sub-score described by the spec and
sensory scores are used directly; in particular acidity 5.0 gets sub-score
0, clamped rather than negative. -/
theorem C3_overall_score_is_spec_mean :
    (∀ m : QualityMetrics, m.calculate_overall_score = spec_overall_score m) ∧
    chemSub 0.8 50 5 = 0 := by
  constructor
  · intro m
    unfold QualityMetrics.calculate_overall_score spec_overall_score
      QualityMetrics.scores spec_sub_scores
    rw [chemSub_eq_specChemSub]
  · rw [chemSub]
    norm_num

/-- C4: `determine_quality_grade` yields extra-virgin for overall score
at least 90, virgin for at least 80, lampante for at least 60, refined
otherwise, and never yields the unknown grade. -/
theorem C4_grade_thresholds (m : QualityMetrics) :
    m.determine_quality_grade =
      (if m.calculate_overall_score ≥ 90 then QualityGrade.extra_virgin
       else if m.calculate_overall_score ≥ 80 then QualityGrade.virgin
       else if m.calculate_overall_score ≥ 60 then QualityGrade.lampante
       else QualityGrade.refined) ∧
    m.determine_quality_grade ≠ QualityGrade.unknown := by
  constructor
  · rfl
  · unfold QualityMetrics.determine_quality_grade
    split_ifs <;> simp

/-- C4 witness: the grade classification evaluated at the empty metrics. -/
theorem C4_grade_thresholds_witness :
    (⟨none, none, none, none, none, none, none⟩ : QualityMetrics).determine_quality_grade =
      (if (⟨none, none, none, none, none, none, none⟩ :
            QualityMetrics).calculate_overall_score ≥ 90 then QualityGrade.extra_virgin
       else if (⟨none, none, none, none, none, none, none⟩ :
            QualityMetrics).calculate_overall_score ≥ 80 then QualityGrade.virgin
       else if (⟨none, none, none, none, none, none, none⟩ :
            QualityMetrics).calculate_overall_score ≥ 60 then QualityGrade.lampante
       else QualityGrade.refined) ∧
    (⟨none, none, none, none, none, none, none⟩ : QualityMetrics).determine_quality_grade ≠
      QualityGrade.unknown :=
  C4_grade_thresholds ⟨none, none, none, none, none, none, none⟩

/-- C10: whenever every present chemical indicator is non-negative and every
present sensory score lies in [0, 100], the overall score lies in [0, 100]. -/
theorem C10_score_bounds (m : QualityMetrics)
    (ha : ∀ a, m.acidity = some a → 0 ≤ a)
    (hp : ∀ p, m.peroxide_value = some p → 0 ≤ p)
    (h2 : ∀ k, m.k232 = some k → 0 ≤ k)
    (h7 : ∀ k, m.k270 = some k → 0 ≤ k)
    (hf : ∀ f, m.flavor_score = some f → 0 ≤ f ∧ f ≤ 100)
    (hr : ∀ a, m.aroma_score = some a → 0 ≤ a ∧ a ≤ 100) :
    0 ≤ m.calculate_overall_score ∧ m.calculate_overall_score ≤ 100 := by
  have h := mean_bounds m.scores (scores_bounds m ha hp h2 h7 hf hr)
  simpa [QualityMetrics.calculate_overall_score] using h

/-- Concrete metrics with every indicator present, for the C10 witness. -/
def metricsAllPresent : QualityMetrics :=
  { acidity := some 0.4, peroxide_value := some 10, k232 := some 2, k270 := some 0.1,
    delta_k := some 0.005, flavor_score := some 85, aroma_score := some 90 }

/-- C10 witness: the bound evaluated at metrics with all indicators
present and in range. -/
theorem C10_score_bounds_witness :
    0 ≤ metricsAllPresent.calculate_overall_score ∧
    metricsAllPresent.calculate_overall_score ≤ 100 :=
  C10_score_bounds metricsAllPresent
    (fun a h => by simp only [metricsAllPresent, Option.some.injEq] at h; subst h; norm_num)
    (fun p h => by simp only [metricsAllPresent, Option.some.injEq] at h; subst h; norm_num)
    (fun k h => by simp only [metricsAllPresent, Option.some.injEq] at h; subst h; norm_num)
    (fun k h => by simp only [metricsAllPresent, Option.some.injEq] at h; subst h; norm_num)
    (fun f h => by simp only [metricsAllPresent, Option.some.injEq] at h; subst h; norm_num)
    (fun a h => by simp only [metricsAllPresent, Option.some.injEq] at h; subst h; norm_num)

/-! ### String machinery: Python substring search, `str.split`, `float(...)`
(src/hyrcania/infrastructure/data_sources/base.py and fluorescence.py) -/

/-- Splits at the first occurrence of `sep`: the characters before it and
those after it, or `none` when `sep` does not occur.  An empty `sep` occurs
at the start (as in Python, where `'' in s` is true). -/
def splitFirst (sep : List Char) : List Char → Option (List Char × List Char)
  | [] => if sep = [] then some ([], []) else none
  | c :: rest =>
    if sep.isPrefixOf (c :: rest) then some ([], (c :: rest).drop sep.length)
    else (splitFirst sep rest).map (fun q => (c :: q.1, q.2))

/-- Python's substring test `sep in hay`. -/
def containsTok (sep hay : List Char) : Bool := (splitFirst sep hay).isSome

lemma splitFirst_length_lt (sep : List Char) (hs : sep ≠ []) :
    ∀ hay b a, splitFirst sep hay = some (b, a) → a.length < hay.length := by
  intro hay
  induction hay with
  | nil =>
    intro b a h
    simp [splitFirst, hs] at h
  | cons c rest ih =>
    intro b a h
    have hpos : 0 < sep.length := List.length_pos.mpr hs
    simp only [splitFirst] at h
    split at h
    · simp only [Option.some.injEq, Prod.mk.injEq] at h
      obtain ⟨hb, ha⟩ := h
      subst ha
      rw [List.length_drop]
      simp only [List.length_cons]
      omega
    · rw [Option.map_eq_some'] at h
      obtain ⟨⟨b', a'⟩, hsp, hf⟩ := h
      have h2 := ih b' a' hsp
      have ha : a = a' := by
        have := congrArg Prod.snd hf
        simpa using this.symm
      subst ha
      simp only [List.length_cons]
      omega

/-- Fuel-driven worker for `splitTok`; the fuel only needs to exceed the
length of `hay`. -/
def splitTokF (sep : List Char) : ℕ → List Char → List (List Char)
  | 0, hay => [hay]
  | fuel + 1, hay =>
    match splitFirst sep hay with
    | none => [hay]
    | some (b, a) => b :: splitTokF sep fuel a

/-- Python `str.split(sep)` for a non-empty separator: the pieces between
the non-overlapping occurrences of `sep`, scanned left to right. -/
def splitTok (sep hay : List Char) : List (List Char) :=
  splitTokF sep (hay.length + 1) hay

lemma splitTokF_succ (sep : List Char) (n : ℕ) (hay : List Char) :
    splitTokF sep (n + 1) hay =
      match splitFirst sep hay with
      | none => [hay]
      | some (b, a) => b :: splitTokF sep n a := rfl

lemma splitTokF_congr (sep : List Char) (hs : sep ≠ []) :
    ∀ f1 f2 hay, hay.length < f1 → hay.length < f2 →
      splitTokF sep f1 hay = splitTokF sep f2 hay := by
  intro f1
  induction f1 with
  | zero => intro f2 hay h1 h2; omega
  | succ n ih =>
    intro f2 hay h1 h2
    cases f2 with
    | zero => omega
    | succ m =>
      rw [splitTokF_succ sep n hay, splitTokF_succ sep m hay]
      cases hsp : splitFirst sep hay with
      | none => rfl
      | some p =>
        obtain ⟨b, a⟩ := p
        have hlt := splitFirst_length_lt sep hs hay b a hsp
        show b :: splitTokF sep n a = b :: splitTokF sep m a
        rw [ih m a (by omega) (by omega)]

lemma splitTok_eq (sep hay : List Char) (hs : sep ≠ []) :
    splitTok sep hay =
      match splitFirst sep hay with
      | none => [hay]
      | some (b, a) => b :: splitTok sep a := by
  unfold splitTok
  rw [splitTokF_succ sep hay.length hay]
  cases hsp : splitFirst sep hay with
  | none => rfl
  | some p =>
    obtain ⟨b, a⟩ := p
    have hlt := splitFirst_length_lt sep hs hay b a hsp
    show b :: splitTokF sep hay.length a = b :: splitTokF sep (a.length + 1) a
    rw [splitTokF_congr sep hs hay.length (a.length + 1) a (by omega) (by omega)]

lemma splitTok_ne_nil (sep hay : List Char) : splitTok sep hay ≠ [] := by
  unfold splitTok
  rw [splitTokF_succ sep hay.length hay]
  cases hsp : splitFirst sep hay with
  | none => simp
  | some p => obtain ⟨b, a⟩ := p; simp

lemma splitTok_head (sep hay : List Char) :
    (splitTok sep hay).getD 0 [] =
      (match splitFirst sep hay with
       | none => hay
       | some p => p.1) := by
  unfold splitTok
  rw [splitTokF_succ sep hay.length hay]
  cases hsp : splitFirst sep hay with
  | none => rfl
  | some p => obtain ⟨b, a⟩ := p; rfl

/-- Splits at the first character satisfying `p` (that character itself is
dropped), or `none` when no character matches. -/
def splitFirstP (p : Char → Bool) : List Char → Option (List Char × List Char)
  | [] => none
  | c :: rest =>
    if p c then some ([], rest)
    else (splitFirstP p rest).map (fun q => (c :: q.1, q.2))

def allDigits (cs : List Char) : Bool := cs.all (fun c => c.isDigit)

def digitsToNat (cs : List Char) : ℕ := cs.foldl (fun a c => a * 10 + (c.toNat - 48)) 0

/-- The unsigned decimal fragment of Python `float(...)`: digits with an
optional decimal point (`"350"`, `"350.00"`, `"350."`, `".5"`).  `inf`,
`nan`, surrounding whitespace and underscore digit separators are outside
the modelled fragment (the repository's headers never use them). -/
def parseUnsignedDec (cs : List Char) : Option ℚ :=
  match splitFirstP (fun c => c = '.') cs with
  | none => if !cs.isEmpty && allDigits cs then some (digitsToNat cs) else none
  | some (ip, fp) =>
    if (!ip.isEmpty || !fp.isEmpty) && allDigits ip && allDigits fp then
      some ((digitsToNat ip : ℚ) + (digitsToNat fp : ℚ) / 10 ^ fp.length)
    else none

/-- Unsigned mantissa with an optional `e`/`E` exponent. -/
def pyFloatNoSign (cs : List Char) : Option ℚ :=
  match splitFirstP (fun c => c = 'e' || c = 'E') cs with
  | none => parseUnsignedDec cs
  | some (mant, ex) =>
    let exVal : Option ℤ :=
      match ex with
      | '+' :: r => if !r.isEmpty && allDigits r then some (digitsToNat r : ℤ) else none
      | '-' :: r => if !r.isEmpty && allDigits r then some (-(digitsToNat r : ℤ)) else none
      | r => if !r.isEmpty && allDigits r then some (digitsToNat r : ℤ) else none
    match parseUnsignedDec mant, exVal with
    | some mv, some ev => some (mv * (10 : ℚ) ^ ev)
    | _, _ => none

/-- Python `float(...)` on the modelled fragment: optional sign, decimal
mantissa, optional exponent; `none` models the `ValueError`. -/
def pyFloat (cs : List Char) : Option ℚ :=
  match cs with
  | '+' :: r => pyFloatNoSign r
  | '-' :: r => (pyFloatNoSign r).map (fun v => -v)
  | r => pyFloatNoSign r

/-- The `"EX_"` marker of fluorescence column headers. -/
def exTok : List Char := ['E', 'X', '_']

/-- Source method `FluorescenceStrategy._extract_excitation_wavelength`: when `"EX_"`
occurs in the column name, split on it and parse `parts[1]` as a float; a
parse failure (the caught `ValueError`) or an absent marker yields the
default 300.0. -/
def extract_excitation_wavelength (column_name : List Char) : ℚ :=
  if containsTok exTok column_name then
    if 1 < (splitTok exTok column_name).length then
      match pyFloat ((splitTok exTok column_name).getD 1 []) with
      | some v => v
      | none => 300
    else 300
  else 300

/-- The token `"AS"` followed by the digit `d`. -/
def asTok (d : ℕ) : List Char := ['A', 'S', Char.ofNat (48 + d)]

/-- Source method `SpectroscopyStrategy._extract_aging_step` with `AgingStep.value`
represented by the bare digit: the source's chain of `"AS0"` .. `"AS9"`
containment tests (`asTok 0` .. `asTok 9`), defaulting to step 0. -/
def extract_aging_step (filename : List Char) : ℕ :=
  if containsTok (asTok 0) filename then 0
  else if containsTok (asTok 1) filename then 1
  else if containsTok (asTok 2) filename then 2
  else if containsTok (asTok 3) filename then 3
  else if containsTok (asTok 4) filename then 4
  else if containsTok (asTok 5) filename then 5
  else if containsTok (asTok 6) filename then 6
  else if containsTok (asTok 7) filename then 7
  else if containsTok (asTok 8) filename then 8
  else if containsTok (asTok 9) filename then 9
  else 0

/-! ### Claims C6 and C7 -/

/-- The value claim C6 predicts: the number parsed from the whole trailing
text after the first `"EX_"` marker, with 300.0 when the marker is absent
or that text does not parse as a float. -/
def claimC6_value (column_name : List Char) : ℚ :=
  match splitFirst exTok column_name with
  | none => 300
  | some p =>
    match pyFloat p.2 with
    | some v => v
    | none => 300

/-- The segment the code actually parses: the part of the trailing text
lying before the next occurrence of `"EX_"` (the whole trailing text when
the marker occurs only once), `none` when the marker is absent. -/
def segmentAfterMarker (column_name : List Char) : Option (List Char) :=
  match splitFirst exTok column_name with
  | none => none
  | some p =>
    some (match splitFirst exTok p.2 with
          | none => p.2
          | some q => q.1)

/-- The amended C6 prediction: parse the segment between the first `"EX_"`
marker and the next occurrence of the marker, defaulting to 300.0 when the
marker is absent or that segment does not parse as a float. -/
def amendedC6_value (column_name : List Char) : ℚ :=
  match segmentAfterMarker column_name with
  | none => 300
  | some seg =>
    match pyFloat seg with
    | some v => v
    | none => 300

/-- C6 (counterexample): for the header `"AEX_1EX_2"` the marker is present
and the trailing text `"1EX_2"` does not parse as a float, so the claim
predicts the default 300.0; the code instead parses `parts[1] = "1"` of the
split and returns 1.0. -/
theorem C6_counterexample :
    extract_excitation_wavelength (String.toList "AEX_1EX_2") = 1 ∧
    claimC6_value (String.toList "AEX_1EX_2") = 300 ∧
    extract_excitation_wavelength (String.toList "AEX_1EX_2") ≠
      claimC6_value (String.toList "AEX_1EX_2") := by
  refine ⟨by decide, by decide, ?_⟩
  intro h
  rw [show extract_excitation_wavelength (String.toList "AEX_1EX_2") = 1 from by decide,
      show claimC6_value (String.toList "AEX_1EX_2") = 300 from by decide] at h
  norm_num at h

/-- C6 (amended): for every header, the extraction returns the number
parsed from the segment between the first `"EX_"` marker and the next
occurrence of the marker (the whole trailing text when the marker occurs
once); `"N0_EX_350.00"` yields 350.0, and a header without the marker
yields the default 300.0. -/
theorem C6_amended :
    (∀ column_name, extract_excitation_wavelength column_name = amendedC6_value column_name) ∧
    extract_excitation_wavelength (String.toList "N0_EX_350.00") = 350 ∧
    extract_excitation_wavelength (String.toList "no_marker") = 300 := by
  refine ⟨fun column_name => ?_, ?_, by decide⟩
  case refine_2 =>
    rw [show extract_excitation_wavelength (String.toList "N0_EX_350.00") =
          ((digitsToNat (String.toList "350") : ℚ) +
            (digitsToNat (String.toList "00") : ℚ) / 10 ^ 2) from rfl,
        show digitsToNat (String.toList "350") = 350 from by decide,
        show digitsToNat (String.toList "00") = 0 from by decide]
    norm_num
  cases hsp : splitFirst exTok column_name with
  | none =>
    unfold extract_excitation_wavelength amendedC6_value segmentAfterMarker containsTok
    rw [hsp]
    rfl
  | some p =>
    obtain ⟨b, trail⟩ := p
    have hTok : splitTok exTok column_name = b :: splitTok exTok trail := by
      rw [splitTok_eq exTok column_name (by decide), hsp]
    have hlen : 1 < (splitTok exTok column_name).length := by
      rw [hTok]
      have := List.length_pos.mpr (splitTok_ne_nil exTok trail)
      simp only [List.length_cons]
      omega
    have hget : (splitTok exTok column_name).getD 1 [] =
        (match splitFirst exTok trail with
         | none => trail
         | some q => q.1) := by
      rw [hTok]
      exact splitTok_head exTok trail
    unfold extract_excitation_wavelength amendedC6_value segmentAfterMarker containsTok
    rw [hsp]
    simp only [Option.isSome_some, eq_self_iff_true, if_true]
    rw [if_pos hlen, hget]

/-- C7 (counterexample): the claim, read over every file name and digit,
fails at `"AS3_AS1"`: the name contains the token `"AS3"` yet the code
returns step 1 (the chain tests `"AS1"` before `"AS3"`). -/
theorem C7_counterexample :
    ¬ (∀ (name : List Char) (d : ℕ), d ≤ 9 →
        containsTok (asTok d) name = true → extract_aging_step name = d) := by
  intro h
  have h3 := h (String.toList "AS3_AS1") 3 (by omega) (by decide)
  have h1 : extract_aging_step (String.toList "AS3_AS1") = 1 := by decide
  omega

/-- The amended C7 prediction: the smallest digit `d` such that the token
`"AS"` followed by `d` occurs in the name, and step 0 when no token
occurs. -/
def spec_aging_step (filename : List Char) : ℕ :=
  ((List.range 10).filter (fun d => containsTok (asTok d) filename)).headD 0

lemma headD_filter_cons (p : ℕ → Bool) (d : ℕ) (l : List ℕ) (dflt : ℕ) :
    ((d :: l).filter p).headD dflt = if p d then d else (l.filter p).headD dflt := by
  rw [List.filter_cons]
  split <;> simp [List.headD]

/-- C7 (amended): aging-step extraction returns the smallest digit `d` in
0-9 whose token `"AS<d>"` occurs in the file name, and step 0 when no such
token occurs; `"2023_AS3_sample.csv"` maps to step 3 and a name without a
token maps to step 0. -/
theorem C7_amended :
    (∀ filename, extract_aging_step filename = spec_aging_step filename) ∧
    extract_aging_step (String.toList "2023_AS3_sample.csv") = 3 ∧
    extract_aging_step (String.toList "2023_sample.csv") = 0 := by
  refine ⟨fun filename => ?_, by decide, by decide⟩
  unfold extract_aging_step spec_aging_step
  rw [show List.range 10 = [0, 1, 2, 3, 4, 5, 6, 7, 8, 9] from by decide]
  rw [headD_filter_cons, headD_filter_cons, headD_filter_cons, headD_filter_cons,
      headD_filter_cons, headD_filter_cons, headD_filter_cons, headD_filter_cons,
      headD_filter_cons, headD_filter_cons, List.filter_nil]
  rfl

/-! ### Spectrum data model and factory
(src/hyrcania/domain/models/spectrum.py, infrastructure/data_sources/factory.py) -/

/-- The `SpectroscopyType` enum. -/
inductive SpectroscopyType where
  | fluorescence
  | absorption
  | raman
  deriving DecidableEq, Repr

/-- The two concrete strategy classes the factory can instantiate. -/
inductive StrategyClass where
  | fluorescenceStrategy
  | absorptionStrategy
  deriving DecidableEq, Repr

/-- The factory's `_strategies` registry in its initial state. -/
def strategies : List (SpectroscopyType × StrategyClass) :=
  [(SpectroscopyType.fluorescence, StrategyClass.fluorescenceStrategy),
   (SpectroscopyType.absorption, StrategyClass.absorptionStrategy)]

/-- Source method `SpectroscopyDataSourceFactory.create_strategy`: registry lookup,
raising `ValueError` (modelled as `Except.error`) for an unregistered
type. -/
def create_strategy (spectroscopy_type : SpectroscopyType) : Except String StrategyClass :=
  match strategies.lookup spectroscopy_type with
  | some cls => Except.ok cls
  | none => Except.error "Unsupported spectroscopy type"

/-- Source method `SpectroscopyDataSourceFactory.create_strategy_from_file`: substring
dispatch on the file path, defaulting to fluorescence. -/
def create_strategy_from_file (file_path : List Char) : Except String StrategyClass :=
  if containsTok (String.toList "Fluorescence") file_path then
    create_strategy SpectroscopyType.fluorescence
  else if containsTok (String.toList "Absorption") file_path then
    create_strategy SpectroscopyType.absorption
  else
    create_strategy SpectroscopyType.fluorescence

/-- C9: factory selection by explicit type yields the fluorescence and
absorption strategies for their types and an error for any other type;
selection by file path tests `"Fluorescence"` then `"Absorption"` as
substrings, in that order, and defaults to fluorescence when neither
occurs. -/
theorem C9_factory_selection :
    create_strategy SpectroscopyType.fluorescence =
      Except.ok StrategyClass.fluorescenceStrategy ∧
    create_strategy SpectroscopyType.absorption =
      Except.ok StrategyClass.absorptionStrategy ∧
    (∀ t : SpectroscopyType, t ≠ SpectroscopyType.fluorescence →
      t ≠ SpectroscopyType.absorption → ∃ e, create_strategy t = Except.error e) ∧
    (∀ file_path, containsTok (String.toList "Fluorescence") file_path = true →
      create_strategy_from_file file_path = Except.ok StrategyClass.fluorescenceStrategy) ∧
    (∀ file_path, containsTok (String.toList "Fluorescence") file_path = false →
      containsTok (String.toList "Absorption") file_path = true →
      create_strategy_from_file file_path = Except.ok StrategyClass.absorptionStrategy) ∧
    (∀ file_path, containsTok (String.toList "Fluorescence") file_path = false →
      containsTok (String.toList "Absorption") file_path = false →
      create_strategy_from_file file_path = Except.ok StrategyClass.fluorescenceStrategy) := by
  refine ⟨rfl, rfl, ?_, ?_, ?_, ?_⟩
  · intro t h1 h2
    cases t with
    | fluorescence => exact absurd rfl h1
    | absorption => exact absurd rfl h2
    | raman => exact ⟨"Unsupported spectroscopy type", rfl⟩
  · intro file_path h
    unfold create_strategy_from_file
    rw [h]
    rfl
  · intro file_path h1 h2
    unfold create_strategy_from_file
    rw [h1, h2]
    rfl
  · intro file_path h1 h2
    unfold create_strategy_from_file
    rw [h1, h2]
    rfl

/-- C9 witness: the factory evaluated at the raman type and at concrete
fluorescence, absorption and unmarked paths. -/
theorem C9_factory_selection_witness :
    (∃ e, create_strategy SpectroscopyType.raman = Except.error e) ∧
    create_strategy_from_file (String.toList "data/Fluorescence/a.csv") =
      Except.ok StrategyClass.fluorescenceStrategy ∧
    create_strategy_from_file (String.toList "data/Absorption/a.csv") =
      Except.ok StrategyClass.absorptionStrategy ∧
    create_strategy_from_file (String.toList "data/other.csv") =
      Except.ok StrategyClass.fluorescenceStrategy :=
  ⟨C9_factory_selection.2.2.1 SpectroscopyType.raman (by decide) (by decide),
   C9_factory_selection.2.2.2.1 (String.toList "data/Fluorescence/a.csv") (by decide),
   C9_factory_selection.2.2.2.2.1 (String.toList "data/Absorption/a.csv")
     (by decide) (by decide),
   C9_factory_selection.2.2.2.2.2 (String.toList "data/other.csv")
     (by decide) (by decide)⟩

/-- The `SpectralData` dataclass; `measurement_conditions` is omitted (never
read by the modelled code). -/
structure SpectralData where
  wavelengths : List ℚ
  intensities : List ℚ
  spectroscopy_type : SpectroscopyType
  excitation_wavelength : Option ℚ := none
  emission_wavelength : Option ℚ := none
  deriving DecidableEq, Repr

/-- Construction of a `SpectralData` through `__post_init__` validation:
a length mismatch, then emptiness, raise `ValueError` (modelled as
`Except.error`). -/
def mkSpectralData (wavelengths intensities : List ℚ) (ty : SpectroscopyType)
    (ex em : Option ℚ) : Except String SpectralData :=
  if wavelengths.length ≠ intensities.length then
    Except.error "Wavelengths and intensities must have the same length"
  else if wavelengths.length = 0 then
    Except.error "Spectral data cannot be empty"
  else
    Except.ok ⟨wavelengths, intensities, ty, ex, em⟩

/-- C8: constructing a `SpectralData` succeeds exactly for wavelength and
intensity sequences of equal non-zero length, raises a validation error
exactly when the lengths differ or both sequences are empty, and every
constructed value satisfies
`len(wavelengths) == len(intensities) > 0`. -/
theorem C8_spectral_data_validation (w i : List ℚ) (ty : SpectroscopyType)
    (ex em : Option ℚ) :
    ((∃ sd, mkSpectralData w i ty ex em = Except.ok sd) ↔
      (w.length = i.length ∧ w.length ≠ 0)) ∧
    ((∃ e, mkSpectralData w i ty ex em = Except.error e) ↔
      (w.length ≠ i.length ∨ (w = [] ∧ i = []))) ∧
    (∀ sd, mkSpectralData w i ty ex em = Except.ok sd →
      sd.wavelengths.length = sd.intensities.length ∧ 0 < sd.wavelengths.length) := by
  unfold mkSpectralData
  split_ifs with h1 h2
  · refine ⟨?_, ?_, ?_⟩
    · simp [h1]
    · simp [h1]
    · intro sd hsd
      simp at hsd
  · push_neg at h1
    refine ⟨?_, ?_, ?_⟩
    · simp [h2]
    · have hw : w = [] := List.length_eq_zero.mp h2
      have hi : i = [] := List.length_eq_zero.mp (by omega)
      simp [hw, hi]
    · intro sd hsd
      simp at hsd
  · push_neg at h1
    refine ⟨?_, ?_, ?_⟩
    · simp
      exact ⟨h1, fun hw => h2 (by simp [hw])⟩
    · have hw : w ≠ [] := fun h => h2 (by simp [h])
      simp [hw]
      omega
    · intro sd hsd
      simp only [Except.ok.injEq] at hsd
      subst hsd
      simp only []
      omega

/-- C8 witness: the validation facts evaluated at the two-point arrays
`[300, 310]` and `[1, 2]`. -/
theorem C8_spectral_data_validation_witness :
    ((∃ sd, mkSpectralData [300, 310] [1, 2] SpectroscopyType.fluorescence
        (some 350) none = Except.ok sd) ↔
      (([300, 310] : List ℚ).length = ([1, 2] : List ℚ).length ∧
        ([300, 310] : List ℚ).length ≠ 0)) ∧
    ((∃ e, mkSpectralData [300, 310] [1, 2] SpectroscopyType.fluorescence
        (some 350) none = Except.error e) ↔
      (([300, 310] : List ℚ).length ≠ ([1, 2] : List ℚ).length ∨
        (([300, 310] : List ℚ) = [] ∧ ([1, 2] : List ℚ) = []))) ∧
    (∀ sd, mkSpectralData [300, 310] [1, 2] SpectroscopyType.fluorescence
        (some 350) none = Except.ok sd →
      sd.wavelengths.length = sd.intensities.length ∧ 0 < sd.wavelengths.length) :=
  C8_spectral_data_validation [300, 310] [1, 2] SpectroscopyType.fluorescence
    (some 350) none

/-! ### CSV spectrum extraction (fluorescence.py) -/

/-- A parsed CSV table as pandas sees it: the column count `df.shape[1]`,
the column headers `df.columns`, and the rows of optional cells (`none`
models a missing/NaN value). -/
structure DataFrame where
  ncols : ℕ
  headers : List (List Char)
  rows : List (List (Option ℚ))

/-- Column `i` of the table, `df.iloc[:, i]`. -/
def DataFrame.col (df : DataFrame) (i : ℕ) : List (Option ℚ) :=
  df.rows.map (fun r => r.getD i none)

/-- One row of the mask-and-select step: a row survives exactly when both
its wavelength and its intensity cell are present (`valid_mask`). -/
def pairIfBoth (cell : Option ℚ × Option ℚ) : Option (ℚ × ℚ) :=
  match cell with
  | (some w, some x) => some (w, x)
  | _ => none

/-- Source method `FluorescenceStrategy._extract_spectrum`: bounds check, then select the
rows of columns `col_idx` and `col_idx + 1` where neither value is
missing, returning the wavelength and intensity arrays cast to float. -/
def extract_spectrum (df : DataFrame) (col_idx : ℕ) :
    Except String (List ℚ × List ℚ) :=
  if df.ncols ≤ col_idx + 1 then Except.error "Column index out of bounds"
  else
    Except.ok
      ((((df.col col_idx).zip (df.col (col_idx + 1))).filterMap pairIfBoth).map Prod.fst,
       (((df.col col_idx).zip (df.col (col_idx + 1))).filterMap pairIfBoth).map Prod.snd)

/-- Source method `FluorescenceStrategy.load_data` once the file is read into a table:
for `i in range(0, ncols - 1, 2)` extract the column pair, keep it as a
`SpectralData` when the wavelength array is non-empty, and skip the pair
(log and continue) when extraction or construction raises. -/
def load_data (df : DataFrame) : List SpectralData :=
  ((List.range (df.ncols - 1)).filter (fun i => i % 2 == 0)).filterMap (fun i =>
    match extract_spectrum df i with
    | Except.error _ => none
    | Except.ok (wavelengths, intensities) =>
      if 0 < wavelengths.length then
        match mkSpectralData wavelengths intensities SpectroscopyType.fluorescence
            (some (extract_excitation_wavelength (df.headers.getD i []))) none with
        | Except.ok sd => some sd
        | Except.error _ => none
      else none)

/-- Spec-side description of extraction: for each even column index `i`
with `i + 1` in range, in increasing column order, the pair's rows with
every row dropped in which either value is missing; the pair yields a
record exactly when some row survives. -/
def spec_extracted (df : DataFrame) : List (List ℚ × List ℚ) :=
  ((List.range (df.ncols - 1)).filter (fun i => i % 2 == 0)).filterMap (fun i =>
    if ((df.col i).zip (df.col (i + 1))).filterMap pairIfBoth = [] then none
    else
      some ((((df.col i).zip (df.col (i + 1))).filterMap pairIfBoth).map Prod.fst,
            (((df.col i).zip (df.col (i + 1))).filterMap pairIfBoth).map Prod.snd))

/-- The example table of claim C5: one wavelength/intensity column pair
with wavelengths 300/310/320 and intensities 1.0/2.0/NaN. -/
def dfEx : DataFrame :=
  { ncols := 2, headers := [String.toList "N0_EX_300.00", String.toList "I0"],
    rows := [[some 300, some 1], [some 310, some 2], [some 320, none]] }

/-- C5: spectrum extraction produces one record per valid adjacent column
pair in increasing column order, whose arrays are the pair's rows with the
rows missing either value dropped; on the example pair with intensities
`[1.0, 2.0, NaN]` the arrays have length 2. -/
theorem C5_spectrum_extraction :
    (∀ df : DataFrame,
      (load_data df).map (fun sd => (sd.wavelengths, sd.intensities)) = spec_extracted df) ∧
    (load_data dfEx).map (fun sd => (sd.wavelengths.length, sd.intensities.length)) =
      [(2, 2)] := by
  constructor
  · intro df
    unfold load_data spec_extracted
    rw [List.map_filterMap]
    apply List.filterMap_congr
    intro i hi
    have hi1 : i < df.ncols - 1 := List.mem_range.mp (List.mem_filter.mp hi).1
    have hi2 : ¬ (df.ncols ≤ i + 1) := by omega
    have hex : extract_spectrum df i =
        Except.ok
          ((((df.col i).zip (df.col (i + 1))).filterMap pairIfBoth).map Prod.fst,
           (((df.col i).zip (df.col (i + 1))).filterMap pairIfBoth).map Prod.snd) := by
      unfold extract_spectrum
      rw [if_neg hi2]
    rw [hex]
    by_cases hke : ((df.col i).zip (df.col (i + 1))).filterMap pairIfBoth = []
    · simp [hke]
    · have hpos : 0 < (((df.col i).zip (df.col (i + 1))).filterMap pairIfBoth).length :=
        List.length_pos.mpr hke
      simp [hke, mkSpectralData, hpos]
  · decide

end Hyrcania
